import Mathlib

set_option maxHeartbeats 1000000

/-!  Shallow embedding of the pyvisio package (src/pyvisio/stencils.py,
documents.py, shapes.py).  The external Visio COM application is modelled
as explicit state/environment data; each Python operation becomes a Lean
function, exceptions become `Except PyErr`, and in-place mutation becomes
explicit state passing.  -/

deriving instance DecidableEq for Except

namespace PyVisio

/-- Python-level exceptions raised by the package: `pythoncom.com_error`
(tagged with the failing external call), `KeyError(name)`,
`ValueError(index)` from `VisStencils.get`, the `ValueError` raised by a
failed tuple unpacking, and `AttributeError(name)`. -/
inductive PyErr where
  | comError (op : String)
  | keyError (k : String)
  | valueErrorIdx (i : Int)
  | valueErrorUnpack
  | attributeError (name : String)
deriving DecidableEq, Repr

/-- Association-list lookup, modelling Python dict lookup (`d[k]`,
`k in d`).  Insertion order is preserved by `aupdate`, matching Python
dict semantics. -/
def alookup {α : Type} (k : String) : List (String × α) → Option α
  | [] => none
  | kv :: t => if kv.1 = k then some kv.2 else alookup k t

/-- Association-list update, modelling Python dict assignment `d[k] = v`:
an existing key keeps its position, a new key is appended at the end. -/
def aupdate {α : Type} (k : String) (v : α) : List (String × α) → List (String × α)
  | [] => [(k, v)]
  | kv :: t => if kv.1 = k then (kv.1, v) :: t else kv :: aupdate k v t

/-- Number of occurrences of `X` in a list. -/
def occCount {α : Type} [DecidableEq α] (X : α) : List α → Nat
  | [] => 0
  | n :: t => (if n = X then 1 else 0) + occCount X t

/-! ### Path handling (os.path.basename, os.path.splitext)

`add_stencil` derives the registry key as
`os.path.basename(os.path.splitext(filename)[0])`.  We model the posix
and Windows path separators '/' and '\\'. -/

/-- Path separator characters recognised by `os.path` on the platforms the
package targets ('/' everywhere, '\\' on Windows). -/
def isSep (c : Char) : Bool := c = '/' || c = '\\'

/-- Index of the last character of `l` satisfying `f`, or `-1` when none
does (mirroring Python's `str.rfind`). -/
def lastPos (f : Char → Bool) (l : List Char) : Int :=
  (l.foldl (fun st c => (st.1 + 1, if f c then st.1 + 1 else st.2))
    ((-1 : Int), (-1 : Int))).2

/-- Model of `os.path.splitext(p)[0]` : drops the extension beginning at the last
'.' of the final path component; leading dots of that component do not
begin an extension. -/
def splitextRoot (p : String) : String :=
  let l := p.toList
  let sepIdx := lastPos isSep l
  let dotIdx := lastPos (fun c => c = '.') l
  if l.enum.any (fun ic =>
      decide (sepIdx < (ic.1 : Int)) && decide ((ic.1 : Int) < dotIdx) && (ic.2 != '.')) then
    String.mk (l.take dotIdx.toNat)
  else p

/-- Model of `os.path.basename(p)` : the part of `p` after the last path separator. -/
def basename (p : String) : String :=
  String.mk (p.toList.foldl (fun acc c => if isSep c then [] else acc ++ [c]) [])

/-- The stencil registry key derived by `VisStencils.add_stencil`:
`key = os.path.basename(os.path.splitext(filename)[0])`. -/
def stencilKey (filename : String) : String := basename (splitextRoot filename)

/-! ### VisStencils (src/pyvisio/stencils.py) -/

/-- External application fixture for stencil loading: `libs f` is the
ordered list of master-shape `NameU` values of the stencil file `f`
(`Documents.OpenEx(f).Masters`), or `none` when opening `f` fails with a
`com_error`. -/
structure StencilEnv where
  libs : String → Option (List String)

/-- The master-shape definition returned by `Masters.ItemU(name)` on the
library opened from `file`: identified by its source file and its NameU. -/
structure MasterDef where
  file : String
  name : String
deriving DecidableEq, Repr

/-- State of a `VisStencils` instance: `stencils` maps the registry key to
the opened library (identified by the filename it was opened from, standing
for the COM document handle); `shapes` maps each master NameU to the list
of registry keys defining it, most recently loaded first; `opened` is the
trace of filenames passed to `Documents.OpenEx`, in call order. -/
structure VisStencils where
  stencils : List (String × String)
  shapes : List (String × List String)
  opened : List String
deriving DecidableEq, Repr

/-- The state built by `VisStencils()` with no arguments:
`self.__stencils = {}` and `self.__shapes = {}`. -/
def emptyStencils : VisStencils := { stencils := [], shapes := [], opened := [] }

/-- One iteration of the registration loop in `add_stencil`:
`if shape.NameU not in self.__shapes: self.__shapes[NameU] = [key]
 else: self.__shapes[NameU].insert(0, key)`. -/
def registerShape (key name : String) (s : List (String × List String)) :
    List (String × List String) :=
  match alookup name s with
  | none => aupdate name [key] s
  | some l => aupdate name (key :: l) s

/-- Registration of every master of a library under `key`, in library
order (`for shape in self.__stencils[key].Masters: ...`). -/
def regAll (key : String) (masters : List String) (s : List (String × List String)) :
    List (String × List String) :=
  masters.foldl (fun s m => registerShape key m s) s

/-- Embeds `VisStencils.add_stencil(filename)` : derives the key, does nothing if
the key is already loaded, otherwise opens the file (recorded in `opened`;
a failed open logs and re-raises the `com_error`) and registers every
master NameU it contains. -/
def VisStencils.add_stencil (st : VisStencils) (env : StencilEnv) (filename : String) :
    Except PyErr VisStencils :=
  let key := stencilKey filename
  if (alookup key st.stencils).isSome then
    .ok st
  else
    match env.libs filename with
    | none => .error (.comError filename)
    | some masters =>
        .ok { stencils := aupdate key filename st.stencils
              shapes := regAll key masters st.shapes
              opened := st.opened ++ [filename] }

/-- Embeds `VisStencils.get(shape, index)` : raises `KeyError(shape)` for an
unregistered name, `ValueError(index)` unless
`len(self.__shapes[shape]) > index >= 0`, and otherwise returns
`self.__stencils[self.__shapes[shape][index]].Masters.ItemU(shape)`. -/
def VisStencils.get (st : VisStencils) (env : StencilEnv) (shape : String) (index : Int) :
    Except PyErr MasterDef :=
  match alookup shape st.shapes with
  | some keys =>
      if (keys.length : Int) > index ∧ index ≥ 0 then
        match alookup (keys.getD index.toNat "") st.stencils with
        | some file =>
            match env.libs file with
            | some masters =>
                if shape ∈ masters then .ok ⟨file, shape⟩
                else .error (.comError "Masters.ItemU")
            | none => .error (.comError "Masters.ItemU")
        | none => .error (.keyError (keys.getD index.toNat ""))
      else
        .error (.valueErrorIdx index)
  | none => .error (.keyError shape)

/-! ### VisShape (src/pyvisio/shapes.py)

A placed shape's COM object is modelled by its formula cells, its text,
its `OneD` flag and the bounding box the external application reports for
it.  `VisShape` holds `self._shape`, which `delete()` sets to `None`. -/

/-- A ShapeSheet cell formula: either the bare numeric literal written by
the position/size setters (`cell.FormulaU = float(v)`), or any other
formula text (e.g. `THEMEVAL()`, `RGB(0,255,0)`, quoted strings). -/
inductive Formula where
  | numLit (v : ℚ)
  | text (s : String)
deriving DecidableEq, Repr

/-- Reading `cell.FormulaU` yields the formula as a string; a numeric
literal prints as the number. -/
def Formula.render : Formula → String
  | .numLit v => toString v
  | .text s => s

/-- The external application's evaluation (`ResultIU`) of a formula that
is a bare numeric literal; `none` for formulas whose value depends on
external state (themes, other cells). -/
def Formula.resultIU : Formula → Option ℚ
  | .numLit v => some v
  | .text _ => none

/-- The external Visio Shape COM object, as touched by this package:
its named formula cells, its `Text`, its `OneD` flag, and the upright
bounding box (`BoundingBox(visBBoxUprightWH, ...)`) the application
computes for it. -/
structure ShapeObj where
  cells : List (String × Formula)
  textC : String
  oneD : Int
  bbox : ℚ × ℚ × ℚ × ℚ
deriving DecidableEq, Repr

/-- Values returned to Python callers by shape operations. -/
inductive PyVal where
  | noneV
  | num (v : ℚ)
  | str (s : String)
  | boolV (b : Bool)
  | tuple4 (t : ℚ × ℚ × ℚ × ℚ)
  | cellObj (name : String) (f : Formula)
deriving DecidableEq, Repr

/-- Model of `shape.CellsU(cid)` : returns the named cell (here: its formula);
a `com_error` when the shape has no such cell. -/
def cellsU (s : ShapeObj) (cid : String) : Except PyErr Formula :=
  match alookup cid s.cells with
  | some f => .ok f
  | none => .error (.comError "CellsU")

/-- Model of `shape.CellsU(cid).FormulaU = f` : overwrites the named cell's
formula, whatever formula it held before; a `com_error` when the shape
has no such cell. -/
def cellsUWrite (s : ShapeObj) (cid : String) (f : Formula) : Except PyErr ShapeObj :=
  match alookup cid s.cells with
  | some _ => .ok { s with cells := aupdate cid f s.cells }
  | none => .error (.comError "CellsU")

/-- Model of `shape.SetCenter(x, y)` : the external application repositions the
shape by its pin, making PinX/PinY the given literal coordinates. -/
def setCenter (s : ShapeObj) (x y : ℚ) : ShapeObj :=
  { s with cells := aupdate "PinY" (.numLit y) (aupdate "PinX" (.numLit x) s.cells) }

/-- The Python-visible state of a `VisShape` instance: `self._shape`,
which is the COM shape while the shape is alive and `None` after
`delete()`. -/
structure VisShape where
  shape : Option ShapeObj
deriving DecidableEq, Repr

/-- The operations of `VisShape` (property getters/setters and methods),
as an enumerated syntax so that use-after-delete can be stated for every
operation at once. -/
inductive ShapeOp where
  | getX | setX (v : ℚ) | getY | setY (v : ℚ)
  | getCoords | movetoOp (x y : ℚ)
  | getW | setW (v : ℚ) | getH | setH (v : ℚ)
  | getText | setTextOp (s : String)
  | getLinecolor | setLinecolorF (f : String) | setlinecolorRGB (r g b : Int)
  | getFillcolor | setFillcolorF (f : String) | setfillcolorRGB (r g b : Int)
  | getOneD | cellRead (cid : String) | setcellOp (cid : String) (v : String) (pre : Bool)
  | deleteOp (flags : Int)
deriving DecidableEq, Repr

/-- Read accessor bodies of the form
`return self._shape.CellsU(cid)` (x, y, w, h): the *cell object* is
returned, not its numeric value (see the source TODO at shapes.py:297). -/
def getCellAccessor (vs : VisShape) (s : ShapeObj) (cid : String) :
    (Except PyErr PyVal) × VisShape :=
  match cellsU s cid with
  | .ok f => (.ok (.cellObj cid f), vs)
  | .error e => (.error e, vs)

/-- Write accessor bodies of the form
`self._shape.CellsU(cid).FormulaU = float(v)` (x, y, w, h setters). -/
def setCellAccessor (cid : String) (s : ShapeObj) (v : ℚ) :
    (Except PyErr PyVal) × VisShape :=
  match cellsUWrite s cid (.numLit v) with
  | .ok s1 => (.ok .noneV, ⟨some s1⟩)
  | .error e => (.error e, ⟨some s⟩)

/-- Write accessor bodies of the form
`self._shape.CellsU(cid).FormulaU = unicode(formula)` (linecolor,
fillcolor setters). -/
def setFormulaAccessor (cid : String) (s : ShapeObj) (f : String) :
    (Except PyErr PyVal) × VisShape :=
  match cellsUWrite s cid (.text f) with
  | .ok s1 => (.ok .noneV, ⟨some s1⟩)
  | .error e => (.error e, ⟨some s⟩)

/-- The `"RGB({0},{1},{2})".format(red, green, blue)` string built by
`setlinecolor` / `setfillcolor`. -/
def rgbFormula (r g b : Int) : String :=
  "RGB(" ++ toString r ++ "," ++ toString g ++ "," ++ toString b ++ ")"

/-- One `VisShape` operation, run against the wrapper state.  When
`self._shape` is `None` (after `delete()`), the first attribute access on
it raises `AttributeError("'NoneType' object has no attribute ...")`,
recorded here with the attribute's name; the external shape is never
touched.  Each live branch is the body of the corresponding accessor or
method in shapes.py. -/
def runShapeOp (op : ShapeOp) (vs : VisShape) : (Except PyErr PyVal) × VisShape :=
  match vs.shape with
  | none =>
      (.error (.attributeError (match op with
        | .getX | .setX _ | .getY | .setY _ | .getW | .setW _ | .getH | .setH _
        | .getLinecolor | .setLinecolorF _ | .setlinecolorRGB _ _ _
        | .getFillcolor | .setFillcolorF _ | .setfillcolorRGB _ _ _ => "CellsU"
        | .getCoords => "BoundingBox"
        | .movetoOp _ _ => "SetCenter"
        | .getText | .setTextOp _ => "Text"
        | .getOneD => "OneD"
        | .cellRead _ | .setcellOp _ _ _ => "CellExistsU"
        | .deleteOp _ => "DeleteEx")), vs)
  | some s =>
      match op with
      | .getX => getCellAccessor vs s "PinX"
      | .setX v => setCellAccessor "PinX" s v
      | .getY => getCellAccessor vs s "PinY"
      | .setY v => setCellAccessor "PinY" s v
      | .getCoords => (.ok (.tuple4 s.bbox), vs)
      | .movetoOp x y => (.ok .noneV, ⟨some (setCenter s x y)⟩)
      | .getW => getCellAccessor vs s "Width"
      | .setW v => setCellAccessor "Width" s v
      | .getH => getCellAccessor vs s "Height"
      | .setH v => setCellAccessor "Height" s v
      | .getText => (.ok (.str s.textC), vs)
      | .setTextOp t => (.ok .noneV, ⟨some { s with textC := t }⟩)
      | .getLinecolor =>
          match cellsU s "LineColor" with
          | .ok f => (.ok (.str f.render), vs)
          | .error e => (.error e, vs)
      | .setLinecolorF f => setFormulaAccessor "LineColor" s f
      | .setlinecolorRGB r g b => setFormulaAccessor "LineColor" s (rgbFormula r g b)
      | .getFillcolor =>
          match cellsU s "Fillforegnd" with
          | .ok f => (.ok (.str f.render), vs)
          | .error e => (.error e, vs)
      | .setFillcolorF f => setFormulaAccessor "Fillforegnd" s f
      | .setfillcolorRGB r g b => setFormulaAccessor "Fillforegnd" s (rgbFormula r g b)
      | .getOneD => (.ok (.boolV (if s.oneD = 0 then false else true)), vs)
      | .cellRead cid =>
          if (alookup cid s.cells).isSome then
            match cellsU s cid with
            | .ok f => (.ok (.str f.render), vs)
            | .error e => (.error e, vs)
          else (.error (.attributeError ""), vs)
      | .setcellOp cid v pre =>
          if (alookup cid s.cells).isSome then
            match cellsUWrite s cid (if pre then .text v else .text ("=\"" ++ v ++ "\"")) with
            | .ok s1 => (.ok .noneV, ⟨some s1⟩)
            | .error e => (.error e, vs)
          else (.error (.attributeError ""), vs)
      | .deleteOp _ => (.ok .noneV, ⟨none⟩)

/-! ### VisConnector (src/pyvisio/shapes.py) -/

/-- The Python-visible state of a `VisConnector` : the wrapped COM shape
(as in `VisShape`) and `self._type`, the part of the connector's NameU
before the first dot. -/
structure VisConnector where
  shape : Option ShapeObj
  type : String
deriving DecidableEq, Repr

/-- Python's `str.split(";")` on a character list: splits at every ';',
keeping empty chunks. -/
def splitSemi : List Char → List (List Char)
  | [] => [[]]
  | c :: t =>
      if c = ';' then [] :: splitSemi t
      else
        match splitSemi t with
        | h :: r => (c :: h) :: r
        | [] => [[c]]

/-- The quoted-string formula `'="{0}"'.format(v)` written to the
Data_Connect label cells and by `setcell(..., preformated=False)`. -/
def quotedFormula (v : String) : String := "=\"" ++ v ++ "\""

/-- The two label-cell writes of the Data_Connect branch of the `text`
setter: `Prop.Port_A_Port_Name` first, then `Prop.Port_B_Port_Name`. -/
def dataConnectWrite (c : VisConnector) (s : ShapeObj) (descA descB : String) :
    (Except PyErr Unit) × VisConnector :=
  match cellsUWrite s "Prop.Port_A_Port_Name" (.text (quotedFormula descA)) with
  | .error e => (.error e, c)
  | .ok s1 =>
      match cellsUWrite s1 "Prop.Port_B_Port_Name" (.text (quotedFormula descB)) with
      | .error e => (.error e, { c with shape := some s1 })
      | .ok s2 => (.ok (), { c with shape := some s2 })

/-- The `text` property setter of `VisConnector`.  For the Data_Connect
type: when the string contains ';', `descA, descB = textval.split(";")`
(a `ValueError` unless the split has exactly two parts, raised before any
cell is touched), otherwise `descA = textval; descB = ""`; both label
cells are then written as quoted-string formulas.  For any other type the
base behaviour `self._shape.Text = unicode(textval)` applies. -/
def VisConnector.setText (c : VisConnector) (tv : String) :
    (Except PyErr Unit) × VisConnector :=
  match c.shape with
  | none =>
      (.error (.attributeError (if c.type = "Data_Connect" then "Cells" else "Text")), c)
  | some s =>
      if c.type = "Data_Connect" then
        if ';' ∈ tv.toList then
          match splitSemi tv.toList with
          | [a, b] => dataConnectWrite c s (String.mk a) (String.mk b)
          | _ => (.error .valueErrorUnpack, c)
        else
          dataConnectWrite c s tv ""
      else
        (.ok (), { c with shape := some { s with textC := tv } })

/-- Member names of the external Visio Shape COM object used by this
package (from the Visio object model).  The Visio Shape object exposes no
member named `setcell` in any casing: the helper of that name is defined
on the Python class `VisShape` and is only reachable as `self.setcell`. -/
def visioShapeMembers : List String :=
  ["Cells", "CellsU", "CellsSRC", "CellExists", "CellExistsU", "Text", "OneD",
   "DeleteEx", "SetCenter", "BoundingBox", "AutoConnect", "FromConnects",
   "ContainingPage", "NameU", "ID", "Export", "Shapes", "ObjectType"]

/-- COM attribute lookup on the external Shape object: `AttributeError`
when the object exposes no such member. -/
def comShapeAttr (name : String) : Except PyErr Unit :=
  if name ∈ visioShapeMembers then .ok () else .error (.attributeError name)

/-- Embeds `VisConnector.route_style(style)` : the body is
`self._shape.setcell("ShapeRouteStyle", style, preformated=False)`.
The attribute `setcell` is looked up on the external COM shape
(`self._shape`), not on the Python object `self`; were the lookup to
succeed, the member would be invoked with the given arguments. -/
def VisConnector.route_style (c : VisConnector) (style : Int) :
    (Except PyErr PyVal) × VisConnector :=
  match c.shape with
  | none => (.error (.attributeError "setcell"), c)
  | some s =>
      match comShapeAttr "setcell" with
      | .error e => (.error e, c)
      | .ok _ =>
          let r := runShapeOp (.setcellOp "ShapeRouteStyle" (toString style) false) ⟨some s⟩
          (r.1, { c with shape := r.2.shape })

/-! ### VisDocument (src/pyvisio/documents.py) -/

/-- The external application settings touched by `VisDocument.close` :
`vCOM.AlertResponse`. -/
structure VisApp where
  alertResponse : Int
deriving DecidableEq, Repr

/-- Outcome of `VisDocument.close(nosave)` : the Python result, the
application state afterwards, the `AlertResponse` in effect during the
external `Document.Close()` call, and the `logger.error` lines emitted. -/
structure CloseOutcome where
  result : Except PyErr Unit
  appAfter : VisApp
  alertDuring : Int
  log : List String
deriving DecidableEq, Repr

/-- Embeds `VisDocument.close(nosave)` : saves `vCOM.AlertResponse`, sets it to 7
when `nosave` is true, calls `self._document.Close()` (whose outcome is
`closeErr`), and runs `vCOM.AlertResponse = AlertResponse` only after a
successful close; a `com_error` is logged and re-raised before that
restore line is reached. -/
def docClose (closeErr : Option PyErr) (app : VisApp) (nosave : Bool) : CloseOutcome :=
  let saved := app.alertResponse
  let app1 := if nosave then { app with alertResponse := 7 } else app
  match closeErr with
  | some e =>
      { result := .error e
        appAfter := app1
        alertDuring := app1.alertResponse
        log := ["Failed to print document", "COM Exception"] }
  | none =>
      { result := .ok ()
        appAfter := { app1 with alertResponse := saved }
        alertDuring := app1.alertResponse
        log := [] }

/-- Trace of one package operation: its result, the `logger.error` lines
emitted, and the external COM calls attempted, in order. -/
structure OpOutcome (α : Type) where
  result : Except PyErr α
  log : List String
  calls : List String

/-- Embeds `VisDocument.save()` : one `Document.Save()` call inside
`try/except com_error`; on failure two error lines are logged and the
same error is re-raised by the bare `raise`. -/
def docSave (saveErr : Option PyErr) : OpOutcome Unit :=
  match saveErr with
  | none => { result := .ok (), log := [], calls := ["Document.Save"] }
  | some e =>
      { result := .error e
        log := ["Failed to save document to file", "COM Exception"]
        calls := ["Document.Save"] }

/-- Embeds `VisShape.__init__(stencil, page, x, y)` : a single bare
`page.Drop(stencil, float(x), float(y))` call with no `try/except` and no
logging; a `com_error` from `Drop` propagates unchanged to the caller. -/
def visShapeInit (dropErr : Option PyErr) (dropped : ShapeObj) : OpOutcome VisShape :=
  match dropErr with
  | none => { result := .ok { shape := some dropped }, log := [], calls := ["Page.Drop"] }
  | some e => { result := .error e, log := [], calls := ["Page.Drop"] }

/-- One page of the external document: its universal name and its
auto-size setting. -/
structure Page where
  nameU : String
  autoSize : Bool
deriving DecidableEq, Repr

/-- The pages of one open document, in position order (`Pages`); position
indices are 1-based. -/
structure VisDocument where
  pages : List Page
deriving DecidableEq, Repr

/-- The default NameU the external application gives the page appended by
`Pages.Add()` to a document that currently has `n - 1` pages. -/
def defaultPageName (n : Nat) : String := "Page-" ++ toString n

/-- Embeds `VisDocument.add(name)` : `self._pages.Add()` appends a page,
`new_page.AutoSize = True`, `new_page.NameU = name` when a name is given,
and `new_page.Index` (the new page's 1-based position) is returned. -/
def VisDocument.add (d : VisDocument) (name : Option String) : Int × VisDocument :=
  let p0 : Page := { nameU := defaultPageName (d.pages.length + 1), autoSize := true }
  let p := match name with
    | some n => { p0 with nameU := n }
    | none => p0
  ((d.pages.length + 1 : Int), { pages := d.pages ++ [p] })

/-- Embeds `VisDocument.__len__` : `self._pages.Count`. -/
def VisDocument.pageCount (d : VisDocument) : Nat := d.pages.length

/-- Embeds `VisDocument.__iter__` : yields `page.NameU` for each page in order;
Python's `in` membership test consumes this iterator. -/
def VisDocument.pageNames (d : VisDocument) : List String :=
  d.pages.map (fun p => p.nameU)

/-- A key passed to `VisDocument.__getitem__` : an integer position or a
page name. -/
inductive PageKey where
  | idx (i : Int)
  | name (s : String)

/-- Embeds `VisDocument.__getitem__(page)` = `self._pages.ItemU(page)` : a
1-based integer position or a page NameU; a `com_error` (logged then
re-raised) when neither matches. -/
def VisDocument.getItem (d : VisDocument) (k : PageKey) : Except PyErr Page :=
  match k with
  | .idx i =>
      if i ≥ 1 then
        match d.pages.get? (i - 1).toNat with
        | some p => .ok p
        | none => .error (.comError "Pages.ItemU")
      else .error (.comError "Pages.ItemU")
  | .name s =>
      match d.pages.find? (fun p => p.nameU == s) with
      | some p => .ok p
      | none => .error (.comError "Pages.ItemU")

/-! ### Concrete fixtures used to exercise the model -/

/-- Did a shape operation fail with an `AttributeError`? -/
def isAttrError : (Except PyErr PyVal) × VisShape → Bool
  | (.error (.attributeError _), _) => true
  | _ => false

/-- A concrete stencil environment: three loadable stencil files, each
defining a master named `X` among others. -/
def exampleStencilEnv : StencilEnv :=
  { libs := fun f =>
      if f = "L1.vss" then some ["X", "Foo"]
      else if f = "L2.vss" then some ["X"]
      else if f = "L3.vss" then some ["Bar", "X"]
      else if f = "sub/L1.vsx" then some ["Other"]
      else none }

/-- A concrete placed shape whose `PinX` initially holds a theme formula. -/
def exampleShape : ShapeObj :=
  { cells := [("PinX", .text "THEMEVAL()"), ("PinY", .numLit 0),
              ("Width", .numLit 1), ("Height", .numLit 1),
              ("LineColor", .text "THEMEVAL()"), ("Fillforegnd", .text "THEMEVAL()")]
    textC := ""
    oneD := 0
    bbox := (0, 0, 1, 1) }

/-- State of `exampleShape` after `shape.x = 3` : PinX overwritten with the literal. -/
def exampleShapeAfterSetX : ShapeObj :=
  { exampleShape with cells := aupdate "PinX" (.numLit 3) exampleShape.cells }

/-- A concrete Data_Connect connector shape with its routing-style cell
and both end-point label cells. -/
def exampleConnShape : ShapeObj :=
  { cells := [("ShapeRouteStyle", .numLit 16),
              ("Prop.Port_A_Port_Name", .text "=\"A\""),
              ("Prop.Port_B_Port_Name", .text "=\"B\"")]
    textC := ""
    oneD := 1
    bbox := (0, 0, 1, 1) }

/-! ## Lemmas about the embedded operations -/

theorem alookup_aupdate_self {α : Type} (k : String) (v : α) (l : List (String × α)) :
    alookup k (aupdate k v l) = some v := by
  induction l with
  | nil => simp [alookup, aupdate]
  | cons kv t ih =>
      by_cases h : kv.1 = k
      · simp [aupdate, h, alookup]
      · simp [aupdate, h, alookup, ih]

theorem alookup_aupdate_ne {α : Type} {k k2 : String} (h : k ≠ k2) (v : α)
    (l : List (String × α)) : alookup k2 (aupdate k v l) = alookup k2 l := by
  induction l with
  | nil => simp [alookup, aupdate, h]
  | cons kv t ih =>
      by_cases hh : kv.1 = k
      · have hne : ¬ kv.1 = k2 := by rw [hh]; exact h
        simp [aupdate, hh, alookup, hne, h]
      · simp [aupdate, hh, alookup, ih]

theorem alookup_mem {α : Type} {k : String} {v : α} {l : List (String × α)}
    (h : alookup k l = some v) : (k, v) ∈ l := by
  induction l with
  | nil => cases h
  | cons kv t ih =>
      obtain ⟨a, b⟩ := kv
      simp only [alookup] at h
      by_cases hh : a = k
      · rw [if_pos hh] at h
        injection h with h
        subst hh
        subst h
        exact List.mem_cons_self _ _
      · rw [if_neg hh] at h
        exact List.mem_cons_of_mem _ (ih h)

theorem mem_aupdate {α : Type} {kv : String × α} {k : String} {v : α}
    {l : List (String × α)} (h : kv ∈ aupdate k v l) : kv ∈ l ∨ kv.2 = v := by
  induction l with
  | nil =>
      rw [aupdate] at h
      rcases List.mem_singleton.mp h with rfl
      exact Or.inr rfl
  | cons kv2 t ih =>
      rw [aupdate] at h
      by_cases hh : kv2.1 = k
      · rw [if_pos hh] at h
        rcases List.mem_cons.mp h with h1 | h1
        · exact Or.inr (by rw [h1])
        · exact Or.inl (List.mem_cons_of_mem _ h1)
      · rw [if_neg hh] at h
        rcases List.mem_cons.mp h with h1 | h1
        · exact Or.inl (by rw [h1]; exact List.mem_cons_self _ _)
        · rcases ih h1 with h2 | h2
          · exact Or.inl (List.mem_cons_of_mem _ h2)
          · exact Or.inr h2

theorem occCount_eq_zero_of_not_mem {α : Type} [DecidableEq α] {X : α} {m : List α}
    (h : X ∉ m) : occCount X m = 0 := by
  induction m with
  | nil => rfl
  | cons n t ih =>
      have h1 : ¬ n = X := by rintro rfl; exact h (List.mem_cons_self _ _)
      rw [occCount, if_neg h1, ih (fun hh => h (List.mem_cons_of_mem n hh))]

theorem mem_of_occCount_pos {α : Type} [DecidableEq α] {X : α} {m : List α}
    (h : occCount X m ≠ 0) : X ∈ m := by
  induction m with
  | nil => exact absurd rfl h
  | cons n t ih =>
      rw [occCount] at h
      by_cases hn : n = X
      · exact hn ▸ List.mem_cons_self n t
      · rw [if_neg hn, Nat.zero_add] at h
        exact List.mem_cons_of_mem n (ih h)

theorem alookup_registerShape_self (key X : String) (s : List (String × List String)) :
    alookup X (registerShape key X s) = some (key :: (alookup X s).getD []) := by
  cases h : alookup X s with
  | none => simp [registerShape, h, alookup_aupdate_self]
  | some l => simp [registerShape, h, alookup_aupdate_self]

theorem alookup_registerShape_ne {n X : String} (key : String) (h : n ≠ X)
    (s : List (String × List String)) :
    alookup X (registerShape key n s) = alookup X s := by
  cases hh : alookup n s with
  | none => simp [registerShape, hh, alookup_aupdate_ne h]
  | some l => simp [registerShape, hh, alookup_aupdate_ne h]

theorem replicate_append_cons {α : Type} (c : Nat) (a : α) (g : List α) :
    List.replicate c a ++ a :: g = List.replicate (c + 1) a ++ g := by
  rw [List.replicate_succ']
  simp

theorem alookup_regAll (key X : String) (m : List String)
    (s : List (String × List String)) :
    alookup X (regAll key m s) =
      if occCount X m = 0 then alookup X s
      else some (List.replicate (occCount X m) key ++ (alookup X s).getD []) := by
  induction m generalizing s with
  | nil => simp [regAll, occCount]
  | cons n t ih =>
      have hstep : regAll key (n :: t) s = regAll key t (registerShape key n s) := by
        simp [regAll]
      rw [hstep, ih]
      by_cases hn : n = X
      · subst hn
        rw [alookup_registerShape_self]
        rw [occCount, if_pos rfl]
        by_cases h0 : occCount n t = 0
        · simp [h0]
        · rw [if_neg h0]
          have hc : ¬ (1 + occCount n t = 0) := by omega
          rw [if_neg hc]
          simp only [Option.getD_some]
          rw [replicate_append_cons]
          have : occCount n t + 1 = 1 + occCount n t := by omega
          rw [this]
      · rw [alookup_registerShape_ne key hn]
        rw [occCount, if_neg hn, Nat.zero_add]

theorem add_stencil_key_loaded {env : StencilEnv} {st st' : VisStencils} {f : String}
    (h : st.add_stencil env f = .ok st') :
    (alookup (stencilKey f) st'.stencils).isSome = true := by
  unfold VisStencils.add_stencil at h
  by_cases hc : (alookup (stencilKey f) st.stencils).isSome = true
  · rw [if_pos hc] at h
    injection h with h
    rw [← h]
    exact hc
  · rw [if_neg hc] at h
    cases hl : env.libs f with
    | none => rw [hl] at h; cases h
    | some ms =>
        rw [hl] at h
        injection h with h
        rw [← h]
        simp [alookup_aupdate_self]

theorem add_stencil_noop_of_loaded {env : StencilEnv} {st : VisStencils} {f : String}
    (h : (alookup (stencilKey f) st.stencils).isSome = true) :
    st.add_stencil env f = .ok st := by
  unfold VisStencils.add_stencil
  rw [if_pos h]

theorem add_stencil_cases {env : StencilEnv} {st st' : VisStencils} {f : String}
    (h : st.add_stencil env f = .ok st') :
    st' = st ∨
    ∃ ms, env.libs f = some ms ∧
      st' = ⟨aupdate (stencilKey f) f st.stencils, regAll (stencilKey f) ms st.shapes,
             st.opened ++ [f]⟩ := by
  unfold VisStencils.add_stencil at h
  by_cases hc : (alookup (stencilKey f) st.stencils).isSome = true
  · rw [if_pos hc] at h
    injection h with h
    exact Or.inl h.symm
  · rw [if_neg hc] at h
    cases hl : env.libs f with
    | none => rw [hl] at h; cases h
    | some ms =>
        rw [hl] at h
        injection h with h
        exact Or.inr ⟨ms, rfl, h.symm⟩

theorem get_ok_file_mem {st : VisStencils} {env : StencilEnv} {shape : String}
    {i : Int} {d : MasterDef} (h : st.get env shape i = .ok d) :
    ∃ k, (k, d.file) ∈ st.stencils := by
  unfold VisStencils.get at h
  cases h1 : alookup shape st.shapes with
  | none => simp only [h1] at h; cases h
  | some keys =>
      simp only [h1] at h
      by_cases hc : ((keys.length : Int) > i ∧ i ≥ 0)
      · rw [if_pos hc] at h
        cases h2 : alookup (keys.getD i.toNat "") st.stencils with
        | none => simp only [h2] at h; cases h
        | some file =>
            simp only [h2] at h
            cases h3 : env.libs file with
            | none => simp only [h3] at h; cases h
            | some ms =>
                simp only [h3] at h
                by_cases hm : shape ∈ ms
                · rw [if_pos hm] at h
                  injection h with h
                  rw [← h]
                  exact ⟨_, alookup_mem h2⟩
                · rw [if_neg hm] at h; cases h
      · rw [if_neg hc] at h; cases h

/-! ## Claim theorems -/

/-- C1: For a shape name `X` defined by stencil libraries loaded in the
order `f1`, `f2`, `f3` (with distinct keys, each defining one master
named `X`), `get(X, 0)` returns `f3`'s definition of `X`, `get(X, 1)`
returns `f2`'s, `get(X, 2)` returns `f1`'s, `get(X, 3)` raises the
bad-index error `ValueError(3)`, and `get(N, i)` for a name `N` never
registered by a loaded library raises `KeyError(N)` for every index `i`. -/
theorem stencils_get_lifo
    (env : StencilEnv) (f1 f2 f3 X N : String) (i : Int) (m1 m2 m3 : List String)
    (h1 : env.libs f1 = some m1) (h2 : env.libs f2 = some m2) (h3 : env.libs f3 = some m3)
    (hc1 : occCount X m1 = 1) (hc2 : occCount X m2 = 1) (hc3 : occCount X m3 = 1)
    (hk12 : stencilKey f1 ≠ stencilKey f2)
    (hk13 : stencilKey f1 ≠ stencilKey f3)
    (hk23 : stencilKey f2 ≠ stencilKey f3)
    (hN1 : N ∉ m1) (hN2 : N ∉ m2) (hN3 : N ∉ m3) :
    ∃ s1 s2 s3 : VisStencils,
      emptyStencils.add_stencil env f1 = .ok s1 ∧
      s1.add_stencil env f2 = .ok s2 ∧
      s2.add_stencil env f3 = .ok s3 ∧
      s3.get env X 0 = .ok ⟨f3, X⟩ ∧
      s3.get env X 1 = .ok ⟨f2, X⟩ ∧
      s3.get env X 2 = .ok ⟨f1, X⟩ ∧
      s3.get env X 3 = .error (.valueErrorIdx 3) ∧
      s3.get env N i = .error (.keyError N) := by
  have hm1 : X ∈ m1 := mem_of_occCount_pos (by rw [hc1]; exact Nat.one_ne_zero)
  have hm2 : X ∈ m2 := mem_of_occCount_pos (by rw [hc2]; exact Nat.one_ne_zero)
  have hm3 : X ∈ m3 := mem_of_occCount_pos (by rw [hc3]; exact Nat.one_ne_zero)
  have hsh : alookup X (regAll (stencilKey f3) m3 (regAll (stencilKey f2) m2
      (regAll (stencilKey f1) m1 []))) =
      some [stencilKey f3, stencilKey f2, stencilKey f1] := by
    rw [alookup_regAll, alookup_regAll, alookup_regAll, hc1, hc2, hc3]
    simp [alookup]
  have hshN : alookup N (regAll (stencilKey f3) m3 (regAll (stencilKey f2) m2
      (regAll (stencilKey f1) m1 []))) = none := by
    rw [alookup_regAll, alookup_regAll, alookup_regAll,
        occCount_eq_zero_of_not_mem hN1, occCount_eq_zero_of_not_mem hN2,
        occCount_eq_zero_of_not_mem hN3]
    simp [alookup]
  have hl3 : alookup (stencilKey f3) (aupdate (stencilKey f3) f3
      (aupdate (stencilKey f2) f2 (aupdate (stencilKey f1) f1 []))) = some f3 :=
    alookup_aupdate_self _ _ _
  have hl2 : alookup (stencilKey f2) (aupdate (stencilKey f3) f3
      (aupdate (stencilKey f2) f2 (aupdate (stencilKey f1) f1 []))) = some f2 := by
    rw [alookup_aupdate_ne (Ne.symm hk23)]
    exact alookup_aupdate_self _ _ _
  have hl1 : alookup (stencilKey f1) (aupdate (stencilKey f3) f3
      (aupdate (stencilKey f2) f2 (aupdate (stencilKey f1) f1 []))) = some f1 := by
    rw [alookup_aupdate_ne (Ne.symm hk13), alookup_aupdate_ne (Ne.symm hk12)]
    exact alookup_aupdate_self _ _ _
  refine ⟨⟨aupdate (stencilKey f1) f1 [], regAll (stencilKey f1) m1 [], [f1]⟩,
      ⟨aupdate (stencilKey f2) f2 (aupdate (stencilKey f1) f1 []),
       regAll (stencilKey f2) m2 (regAll (stencilKey f1) m1 []), [f1, f2]⟩,
      ⟨aupdate (stencilKey f3) f3 (aupdate (stencilKey f2) f2 (aupdate (stencilKey f1) f1 [])),
       regAll (stencilKey f3) m3 (regAll (stencilKey f2) m2 (regAll (stencilKey f1) m1 [])),
       [f1, f2, f3]⟩, ?_, ?_, ?_, ?_, ?_, ?_, ?_, ?_⟩
  · simp [VisStencils.add_stencil, emptyStencils, alookup, h1]
  · simp [VisStencils.add_stencil, alookup, aupdate, hk12, h2]
  · simp [VisStencils.add_stencil, alookup, aupdate, hk12, hk13, hk23, h3]
  · simp [VisStencils.get, hsh, hl3, h3, hm3]
  · simp [VisStencils.get, hsh, hl2, h2, hm2]
  · simp [VisStencils.get, hsh, hl1, h1, hm1]
  · simp [VisStencils.get, hsh]
  · simp [VisStencils.get, hshN]

/-- C2: Calling `add_stencil` twice with filenames deriving the same
library key is idempotent: once the first call has completed, the second
call returns with the registry, the resolution lists and the trace of
`OpenEx` calls exactly as the first call left them. -/
theorem add_stencil_idempotent (env : StencilEnv) (st st' : VisStencils) (p1 p2 : String)
    (hkey : stencilKey p1 = stencilKey p2)
    (h1 : st.add_stencil env p1 = .ok st') :
    st'.add_stencil env p2 = .ok st' := by
  have h := add_stencil_key_loaded h1
  rw [hkey] at h
  exact add_stencil_noop_of_loaded h

/-- C9: The library key is the basename of the filename with its
extension stripped, so a second `add_stencil` whose filename derives the
same key is a no-op: the state (registry, resolution lists, `OpenEx`
trace) is returned unchanged, `p2` is never opened, no opened library
comes from `p2`, and no resolvable master definition originates from
`p2`. -/
theorem add_stencil_same_key_noop (env : StencilEnv) (st st' : VisStencils) (p1 p2 : String)
    (hne : p1 ≠ p2) (hkey : stencilKey p1 = stencilKey p2)
    (h1 : st.add_stencil env p1 = .ok st')
    (hop : p2 ∉ st.opened)
    (hval : ∀ kv ∈ st.stencils, kv.2 ≠ p2) :
    st'.add_stencil env p2 = .ok st' ∧
    p2 ∉ st'.opened ∧
    (∀ kv ∈ st'.stencils, kv.2 ≠ p2) ∧
    (∀ shape i d, st'.get env shape i = .ok d → d.file ≠ p2) := by
  have hload := add_stencil_key_loaded h1
  rw [hkey] at hload
  have hnoop := @add_stencil_noop_of_loaded env st' p2 hload
  have hvals : ∀ kv ∈ st'.stencils, kv.2 ≠ p2 := by
    rcases add_stencil_cases h1 with rfl | ⟨ms, hms, rfl⟩
    · exact hval
    · intro kv hkv
      rcases mem_aupdate hkv with h | h
      · exact hval kv h
      · rw [h]; exact hne
  have hopened : p2 ∉ st'.opened := by
    rcases add_stencil_cases h1 with rfl | ⟨ms, hms, rfl⟩
    · exact hop
    · intro hmem
      rcases List.mem_append.mp hmem with h | h
      · exact hop h
      · exact hne (List.mem_singleton.mp h).symm
  refine ⟨hnoop, hopened, hvals, ?_⟩
  intro shape i d hd
  obtain ⟨k, hk⟩ := get_ok_file_mem hd
  exact hvals (k, d.file) hk

/-- Witness for `stencils_get_lifo` at the concrete environment
`exampleStencilEnv`. -/
theorem stencils_get_lifo_witness :
    ∃ s1 s2 s3 : VisStencils,
      emptyStencils.add_stencil exampleStencilEnv "L1.vss" = .ok s1 ∧
      s1.add_stencil exampleStencilEnv "L2.vss" = .ok s2 ∧
      s2.add_stencil exampleStencilEnv "L3.vss" = .ok s3 ∧
      s3.get exampleStencilEnv "X" 0 = .ok ⟨"L3.vss", "X"⟩ ∧
      s3.get exampleStencilEnv "X" 1 = .ok ⟨"L2.vss", "X"⟩ ∧
      s3.get exampleStencilEnv "X" 2 = .ok ⟨"L1.vss", "X"⟩ ∧
      s3.get exampleStencilEnv "X" 3 = .error (.valueErrorIdx 3) ∧
      s3.get exampleStencilEnv "Nope" 5 = .error (.keyError "Nope") :=
  stencils_get_lifo exampleStencilEnv "L1.vss" "L2.vss" "L3.vss" "X" "Nope" 5
    ["X", "Foo"] ["X"] ["Bar", "X"]
    (by decide) (by decide) (by decide) (by decide) (by decide) (by decide)
    (by decide) (by decide) (by decide) (by decide) (by decide) (by decide)

/-- Witness for `add_stencil_idempotent` : re-adding a path that derives
the already-loaded key "L1" is a no-op. -/
theorem add_stencil_idempotent_witness :
    (⟨[("L1", "L1.vss")], [("X", ["L1"]), ("Foo", ["L1"])], ["L1.vss"]⟩
        : VisStencils).add_stencil exampleStencilEnv "sub/L1.vsx" =
      .ok ⟨[("L1", "L1.vss")], [("X", ["L1"]), ("Foo", ["L1"])], ["L1.vss"]⟩ :=
  add_stencil_idempotent exampleStencilEnv emptyStencils
    ⟨[("L1", "L1.vss")], [("X", ["L1"]), ("Foo", ["L1"])], ["L1.vss"]⟩
    "L1.vss" "sub/L1.vsx" (by decide) (by decide)

/-- Witness for `add_stencil_same_key_noop` : "sub/L1.vsx" shares the key
"L1" with the already-loaded "L1.vss" and is therefore never opened. -/
theorem add_stencil_same_key_noop_witness :
    (⟨[("L1", "L1.vss")], [("X", ["L1"]), ("Foo", ["L1"])], ["L1.vss"]⟩
        : VisStencils).add_stencil exampleStencilEnv "sub/L1.vsx" =
      .ok ⟨[("L1", "L1.vss")], [("X", ["L1"]), ("Foo", ["L1"])], ["L1.vss"]⟩ ∧
    "sub/L1.vsx" ∉ (⟨[("L1", "L1.vss")], [("X", ["L1"]), ("Foo", ["L1"])], ["L1.vss"]⟩
        : VisStencils).opened ∧
    (∀ kv ∈ (⟨[("L1", "L1.vss")], [("X", ["L1"]), ("Foo", ["L1"])], ["L1.vss"]⟩
        : VisStencils).stencils, kv.2 ≠ "sub/L1.vsx") ∧
    (∀ shape i d,
      (⟨[("L1", "L1.vss")], [("X", ["L1"]), ("Foo", ["L1"])], ["L1.vss"]⟩
          : VisStencils).get exampleStencilEnv shape i = .ok d →
      d.file ≠ "sub/L1.vsx") :=
  add_stencil_same_key_noop exampleStencilEnv emptyStencils
    ⟨[("L1", "L1.vss")], [("X", ["L1"]), ("Foo", ["L1"])], ["L1.vss"]⟩
    "L1.vss" "sub/L1.vsx" (by decide) (by decide) (by decide)
    (by simp [emptyStencils]) (by simp [emptyStencils])

/-- C4: `delete()` on a live shape succeeds, sets `self._shape = None`,
and every subsequent `VisShape` operation on the object fails with an
`AttributeError` (the first attribute access on the `None` handle),
touching no shape state. -/
theorem delete_invalidates_handle (s : ShapeObj) (flags : Int) (op : ShapeOp) :
    runShapeOp (.deleteOp flags) ⟨some s⟩ = (.ok .noneV, ⟨none⟩) ∧
    isAttrError (runShapeOp op ⟨none⟩) = true ∧
    (runShapeOp op ⟨none⟩).2 = ⟨none⟩ := by
  refine ⟨rfl, ?_, ?_⟩ <;> cases op <;> rfl

/-- C3 (code bug): after `shape.x = 3` the `x` getter returns the external
`PinX` Cell COM object — whose formula is now the literal 3 and whose
numeric result is 3, overwriting the previous THEMEVAL() formula — but it
does not return the number 3 itself (the source's own TODO at
shapes.py:297 records this as a bug). -/
theorem x_getter_returns_cell_object :
    runShapeOp (.setX 3) ⟨some exampleShape⟩ = (.ok .noneV, ⟨some exampleShapeAfterSetX⟩) ∧
    alookup "PinX" exampleShape.cells = some (.text "THEMEVAL()") ∧
    (runShapeOp .getX ⟨some exampleShapeAfterSetX⟩).1 =
      .ok (.cellObj "PinX" (.numLit 3)) ∧
    Formula.resultIU (.numLit 3) = some 3 ∧
    ∀ v : ℚ, (runShapeOp .getX ⟨some exampleShapeAfterSetX⟩).1 ≠ .ok (.num v) := by
  refine ⟨by decide, by decide, by decide, rfl, fun v h => ?_⟩
  rw [(by decide : (runShapeOp .getX ⟨some exampleShapeAfterSetX⟩).1 =
      .ok (.cellObj "PinX" (.numLit 3)))] at h
  simp at h

/-- C7 (code bug): `route_style(0)` on a live connector raises
`AttributeError("setcell")` — the external Visio Shape COM object has no
member of that name — and leaves the connector (in particular its
`ShapeRouteStyle` cell) unchanged. -/
theorem route_style_raises_attribute_error :
    VisConnector.route_style ⟨some exampleConnShape, "Data_Connect"⟩ 0 =
      (.error (.attributeError "setcell"), ⟨some exampleConnShape, "Data_Connect"⟩) := by
  decide

/-- C5 counterexample: a `com_error` from `Page.Drop` inside
`VisShape.__init__` reaches the caller with no log line emitted, so not
every failing external call is logged before being re-raised. -/
theorem shape_init_failure_unlogged :
    (visShapeInit (some (.comError "Page.Drop")) exampleShape).result =
      .error (.comError "Page.Drop") ∧
    (visShapeInit (some (.comError "Page.Drop")) exampleShape).log = [] :=
  ⟨rfl, rfl⟩

/-- C5 amended: failing external calls are never retried and never
swallowed — the `com_error` reaches the caller unchanged and the external
call is attempted exactly once — but only the operations wrapped in
`try/except` log first (e.g. `VisDocument.save`); `VisShape.__init__`
propagates the error without logging. -/
theorem external_errors_propagate_unchanged (e : PyErr) (d : ShapeObj) :
    (docSave (some e)).result = .error e ∧
    (docSave (some e)).calls = ["Document.Save"] ∧
    (docSave (some e)).log ≠ [] ∧
    (docSave none).result = .ok () ∧
    (visShapeInit (some e) d).result = .error e ∧
    (visShapeInit (some e) d).calls = ["Page.Drop"] ∧
    (visShapeInit (some e) d).log = [] := by
  refine ⟨rfl, rfl, by simp [docSave], rfl, rfl, rfl, rfl⟩

/-- C6 counterexample: with the application's `AlertResponse` at 1,
`close(nosave=True)` whose external `Close` fails re-raises the error and
leaves `AlertResponse` at the suppression value 7 — the prior value is
not restored on the failure path. -/
theorem close_failure_leaves_alert_suppressed :
    (docClose (some (.comError "Document.Close")) ⟨1⟩ true).result =
      .error (.comError "Document.Close") ∧
    (docClose (some (.comError "Document.Close")) ⟨1⟩ true).appAfter.alertResponse = 7 ∧
    (7 : Int) ≠ 1 :=
  ⟨rfl, rfl, by decide⟩

/-- C6 amended: `close(nosave=True)` sets `AlertResponse` to 7 for the
duration of the external `Close` call; when `Close` succeeds the prior
value is restored, but when `Close` fails the error is logged and
propagated with `AlertResponse` left at 7. -/
theorem close_alert_response (app : VisApp) (e : PyErr) :
    (docClose none app true).alertDuring = 7 ∧
    (docClose none app true).appAfter.alertResponse = app.alertResponse ∧
    (docClose none app true).result = .ok () ∧
    (docClose (some e) app true).result = .error e ∧
    (docClose (some e) app true).appAfter.alertResponse = 7 ∧
    (docClose (some e) app true).log ≠ [] := by
  refine ⟨rfl, rfl, rfl, rfl, rfl, by simp [docClose]⟩

theorem find?_append_of_none {α : Type} {p : α → Bool} {l1 : List α} (l2 : List α)
    (h : l1.find? p = none) : (l1 ++ l2).find? p = l2.find? p := by
  induction l1 with
  | nil => rfl
  | cons a t ih =>
      by_cases hp : p a
      · rw [List.find?_cons_of_pos t hp] at h; cases h
      · rw [List.find?_cons_of_neg t hp] at h
        rw [List.cons_append, List.find?_cons_of_neg _ hp]
        exact ih h

/-- C8: `add(name)` with a name not already used appends exactly one page,
returns the new page's 1-based position index, and makes the name
discoverable through iteration/membership and through both named and
indexed lookup (each returning the new auto-sized page). -/
theorem add_page_discoverable (d : VisDocument) (name : String)
    (hfresh : name ∉ d.pageNames) :
    (d.add (some name)).2.pageCount = d.pageCount + 1 ∧
    (d.add (some name)).1 = (d.pageCount : Int) + 1 ∧
    name ∈ (d.add (some name)).2.pageNames ∧
    (d.add (some name)).2.getItem (.name name) = .ok ⟨name, true⟩ ∧
    (d.add (some name)).2.getItem (.idx ((d.add (some name)).1)) = .ok ⟨name, true⟩ := by
  have hfind : d.pages.find? (fun p => p.nameU == name) = none := by
    rw [List.find?_eq_none]
    intro p hp
    simp only [beq_iff_eq]
    intro hb
    exact hfresh (List.mem_map.mpr ⟨p, hp, hb⟩)
  refine ⟨?_, ?_, ?_, ?_, ?_⟩
  · simp [VisDocument.add, VisDocument.pageCount]
  · simp [VisDocument.add, VisDocument.pageCount]
  · simp [VisDocument.add, VisDocument.pageNames]
  · simp only [VisDocument.add, VisDocument.getItem]
    rw [find?_append_of_none _ hfind]
    simp
  · simp only [VisDocument.add, VisDocument.getItem]
    have h1 : ((d.pages.length : Int) + 1) ≥ 1 := by omega
    rw [if_pos h1]
    have h2 : (((d.pages.length : Int) + 1) - 1).toNat = d.pages.length := by omega
    rw [h2, List.get?_eq_getElem?, List.getElem?_concat_length]

/-- Witness for `add_page_discoverable` on a one-page document. -/
theorem add_page_discoverable_witness :
    ((⟨[⟨"Page-1", false⟩]⟩ : VisDocument).add (some "TestPage")).2.pageCount =
      (⟨[⟨"Page-1", false⟩]⟩ : VisDocument).pageCount + 1 ∧
    ((⟨[⟨"Page-1", false⟩]⟩ : VisDocument).add (some "TestPage")).1 =
      ((⟨[⟨"Page-1", false⟩]⟩ : VisDocument).pageCount : Int) + 1 ∧
    "TestPage" ∈ ((⟨[⟨"Page-1", false⟩]⟩ : VisDocument).add (some "TestPage")).2.pageNames ∧
    ((⟨[⟨"Page-1", false⟩]⟩ : VisDocument).add (some "TestPage")).2.getItem
      (.name "TestPage") = .ok ⟨"TestPage", true⟩ ∧
    ((⟨[⟨"Page-1", false⟩]⟩ : VisDocument).add (some "TestPage")).2.getItem
      (.idx (((⟨[⟨"Page-1", false⟩]⟩ : VisDocument).add (some "TestPage")).1)) =
      .ok ⟨"TestPage", true⟩ :=
  add_page_discoverable ⟨[⟨"Page-1", false⟩]⟩ "TestPage" (by decide)

theorem splitSemi_ne_nil (l : List Char) : splitSemi l ≠ [] := by
  cases l with
  | nil => simp [splitSemi]
  | cons c t =>
      rw [splitSemi]
      by_cases hc : c = ';'
      · rw [if_pos hc]; simp
      · rw [if_neg hc]
        cases h : splitSemi t <;> simp

theorem splitSemi_length (l : List Char) :
    (splitSemi l).length = occCount ';' l + 1 := by
  induction l with
  | nil => rfl
  | cons c t ih =>
      rw [splitSemi, occCount]
      by_cases hc : c = ';'
      · rw [if_pos hc, if_pos hc]
        simp only [List.length_cons]
        omega
      · rw [if_neg hc, if_neg hc]
        obtain ⟨h, r, hr⟩ := List.exists_cons_of_ne_nil (splitSemi_ne_nil t)
        rw [hr]
        rw [hr] at ih
        simp only [List.length_cons] at ih ⊢
        omega

theorem occCount_ne_zero_of_mem {α : Type} [DecidableEq α] {X : α} {m : List α}
    (h : X ∈ m) : occCount X m ≠ 0 := by
  induction m with
  | nil => cases h
  | cons n t ih =>
      rw [occCount]
      by_cases hn : n = X
      · rw [if_pos hn]; omega
      · rw [if_neg hn, Nat.zero_add]
        refine ih ?_
        rcases List.mem_cons.mp h with h1 | h1
        · exact absurd h1.symm hn
        · exact h1

/-- C10: on a Data_Connect connector whose shape has both label cells, a
text value with no ';' is written in full to the start-point label cell
`Prop.Port_A_Port_Name` with the empty string written to the end-point
label cell `Prop.Port_B_Port_Name` (both as quoted-string formulas),
while a value with two or more ';' separators raises the tuple-unpacking
`ValueError` with the connector — in particular both label cells —
untouched. -/
theorem data_connect_text_setter (c : VisConnector) (s : ShapeObj) (tv : String)
    (hty : c.type = "Data_Connect") (hsh : c.shape = some s)
    (fA : Formula) (hA : alookup "Prop.Port_A_Port_Name" s.cells = some fA)
    (fB : Formula) (hB : alookup "Prop.Port_B_Port_Name" s.cells = some fB) :
    (occCount ';' tv.toList = 0 →
      c.setText tv = (.ok (), { c with
        shape := some { s with
          cells := aupdate "Prop.Port_B_Port_Name" (.text (quotedFormula ""))
            (aupdate "Prop.Port_A_Port_Name" (.text (quotedFormula tv)) s.cells) } })) ∧
    (2 ≤ occCount ';' tv.toList →
      c.setText tv = (.error .valueErrorUnpack, c)) := by
  have hAB : ¬ ("Prop.Port_A_Port_Name" : String) = "Prop.Port_B_Port_Name" := by decide
  constructor
  · intro h0
    have hnotmem : ';' ∉ tv.toList := fun hm => occCount_ne_zero_of_mem hm h0
    simp [VisConnector.setText, hsh, hty, hnotmem, dataConnectWrite, cellsUWrite,
      hA, hB, alookup_aupdate_ne hAB]
    exact fun hm => absurd hm hnotmem
  · intro h2
    have hmem : ';' ∈ tv.toList := mem_of_occCount_pos (by omega)
    have hlen : (splitSemi tv.toList).length = occCount ';' tv.toList + 1 :=
      splitSemi_length _
    unfold VisConnector.setText
    simp only [hsh]
    rw [if_pos hty, if_pos hmem]
    rcases hsp : splitSemi tv.toList with _ | ⟨a, _ | ⟨b, _ | ⟨c3, r3⟩⟩⟩
    · exact absurd hsp (splitSemi_ne_nil _)
    · exfalso
      rw [hsp] at hlen
      simp only [List.length_cons, List.length_nil] at hlen
      omega
    · exfalso
      rw [hsp] at hlen
      simp only [List.length_cons, List.length_nil] at hlen
      omega
    · rfl

/-- Witness for `data_connect_text_setter` on a concrete Data_Connect
connector and the separator-free text "hello". -/
theorem data_connect_text_setter_witness :
    (occCount ';' "hello".toList = 0 →
      (⟨some exampleConnShape, "Data_Connect"⟩ : VisConnector).setText "hello" =
        (.ok (), { (⟨some exampleConnShape, "Data_Connect"⟩ : VisConnector) with
          shape := some { exampleConnShape with
            cells := aupdate "Prop.Port_B_Port_Name" (.text (quotedFormula ""))
              (aupdate "Prop.Port_A_Port_Name" (.text (quotedFormula "hello"))
                exampleConnShape.cells) } })) ∧
    (2 ≤ occCount ';' "hello".toList →
      (⟨some exampleConnShape, "Data_Connect"⟩ : VisConnector).setText "hello" =
        (.error .valueErrorUnpack, ⟨some exampleConnShape, "Data_Connect"⟩)) :=
  data_connect_text_setter ⟨some exampleConnShape, "Data_Connect"⟩ exampleConnShape
    "hello" rfl rfl (.text "=\"A\"") (by decide) (.text "=\"B\"") (by decide)

end PyVisio
